import Mathlib

/-!
Shallow embedding of the `starlite-saqlalchemy` boilerplate layer.

The embedding covers:
* `src/starlite_saqlalchemy/repository/sqlalchemy.py` — the
  `SQLAlchemyRepository` CRUD + filter wrapper and
  `wrap_sqlalchemy_exception`;
* `src/starlite_saqlalchemy/health.py` — the health-check route handler;
* `src/starlite_lib/starlite/app.py` — the `Starlite.__init__` wrapper;
* `src/starlite_saqpg/init_plugin.py` — the `ConfigureApp` plugin.

Model attribute values are integers (datetimes are modelled as their
timestamps), rows are finite attribute maps, and a SQLAlchemy `Select`
is modelled by its list of where-clauses together with optional limit
and offset.  The async session is modelled by a state record carrying
the table contents, the identity map of attached instances, and oracle
fields saying whether each fallible ORM primitive raises.
-/

namespace StarliteSaqlalchemy

/-- A model instance: a finite map from attribute names to values.
Values are modelled as integers (`datetime` maps to its timestamp). -/
structure Row where
  attrs : List (String × Int)
deriving DecidableEq, Repr

/-- Attribute access `getattr(instance, field)`; unset attributes read 0. -/
def Row.get (r : Row) (f : String) : Int :=
  match r.attrs.find? (fun kv => kv.1 = f) with
  | some kv => kv.2
  | none => 0

/-- A where-clause of the translated filter DSL.  Comparison bounds for the
datetime filters carry the `Option` the Python code passes (`before` /
`after` may be `None`), mirroring the expressions the source builds. -/
inductive WhereClause
  | ltC (field : String) (bound : Option Int)
  | gtC (field : String) (bound : Option Int)
  | inC (field : String) (values : List Int)
  | eqC (field : String) (value : Int)
deriving DecidableEq, Repr

/-- SQL evaluation of a where-clause on a row.  A comparison against
`NULL` (`None`) is never true. -/
def WhereClause.eval : WhereClause → Row → Bool
  | .ltC f b, r => match b with | some v => r.get f < v | none => false
  | .gtC f b, r => match b with | some v => r.get f > v | none => false
  | .inC f vs, r => vs.contains (r.get f)
  | .eqC f v, r => decide (r.get f = v)

/-- A SQLAlchemy `Select` statement, reduced to the parts the repository
manipulates: conjunction of where-clauses, optional limit and offset. -/
structure Select where
  wheres : List WhereClause
  limit : Option Int
  offset : Option Int
deriving DecidableEq, Repr

/-- `select.where(clause)`. -/
def Select.addWhere (s : Select) (c : WhereClause) : Select :=
  { s with wheres := s.wheres ++ [c] }

/-- `select.limit(l)`. -/
def Select.setLimit (s : Select) (l : Int) : Select :=
  { s with limit := some l }

/-- `select.offset(o)`. -/
def Select.setOffset (s : Select) (o : Int) : Select :=
  { s with offset := some o }

/-- `select(model_type)`: the unrestricted select over the model's table. -/
def selectAll : Select :=
  { wheres := [], limit := none, offset := none }

/-- Running a select against the table: keep the rows satisfying every
where-clause, then apply offset, then limit. -/
def Select.run (s : Select) (db : List Row) : List Row :=
  let filtered := db.filter (fun r => s.wheres.all (fun c => c.eval r))
  let offsetApplied :=
    match s.offset with
    | some o => filtered.drop o.toNat
    | none => filtered
  match s.limit with
  | some l => offsetApplied.take l.toNat
  | none => offsetApplied

/-- The filter DSL from `repository/filters.py` (dataclasses `LimitOffset`,
`BeforeAfter`, `CollectionFilter`; that module is not under `src/`, the
dataclass shapes are taken from their destructuring in `list`). -/
inductive FilterTypes
  | limitOffset (limit : Int) (offset : Int)
  | beforeAfter (fieldName : String) (before : Option Int) (after : Option Int)
  | collectionFilter (fieldName : String) (values : List Int)
deriving DecidableEq, Repr

/-- A `SQLAlchemyError` raised by the ORM: either an `IntegrityError` or
any other `SQLAlchemyError`. -/
inductive SqlExc
  | integrityError (msg : String)
  | otherError (msg : String)
deriving DecidableEq, Repr

/-- An exception in flight.  `sqlalchemy` is an unwrapped `SQLAlchemyError`;
`repositoryConflict` and `repository` carry the original error they are
chained from (`raise ... from exc`); `notFound` is the
`RepositoryNotFoundException` raised by `check_not_found` (from the
abstract base, which is not under `src/`; modelled from its use). -/
inductive Exc
  | sqlalchemy (e : SqlExc)
  | repositoryConflict (chainedFrom : SqlExc)
  | repository (msg : String) (chainedFrom : SqlExc)
  | notFound
deriving DecidableEq, Repr

/-- `wrap_sqlalchemy_exception` as a transformer of outcomes: an
`IntegrityError` becomes `RepositoryConflictException` chained from it,
any other `SQLAlchemyError` becomes `RepositoryException` chained from
it, and everything else passes through. -/
def wrap_sqlalchemy_exception {α : Type} : Except Exc α → Except Exc α
  | .error (.sqlalchemy (.integrityError m)) =>
      .error (.repositoryConflict (.integrityError m))
  | .error (.sqlalchemy (.otherError m)) =>
      .error (.repository ("An exception occurred: " ++ m) (.otherError m))
  | r => r

/-- The wrapped form of a raised `SQLAlchemyError`. -/
def wrapErr : SqlExc → Exc
  | .integrityError m => .repositoryConflict (.integrityError m)
  | .otherError m => .repository ("An exception occurred: " ++ m) (.otherError m)

instance {ε α : Type} [DecidableEq ε] [DecidableEq α] : DecidableEq (Except ε α) := fun x y =>
  match x, y with
  | .ok a, .ok b =>
      if h : a = b then isTrue (by rw [h])
      else isFalse (fun hh => h (Except.ok.inj hh))
  | .error a, .error b =>
      if h : a = b then isTrue (by rw [h])
      else isFalse (fun hh => h (Except.error.inj hh))
  | .ok _, .error _ => isFalse (fun hh => Except.noConfusion hh)
  | .error _, .ok _ => isFalse (fun hh => Except.noConfusion hh)

/-- The async session: table contents `db`, identity map `attached`,
oracle fields describing whether each fallible ORM primitive raises on
this session, and the outcome of `execute(text("SELECT 1")).scalar_one()`
used by the health check. -/
structure Session where
  db : List Row
  attached : List Row
  flushExc : Option SqlExc
  refreshExc : Option SqlExc
  executeExc : Option SqlExc
  deleteExc : Option SqlExc
  mergeExc : Option SqlExc
  selectOneResult : Except Exc Int
deriving DecidableEq, Repr

/-- `session.add(instance)`: attach the instance to the identity map. -/
def Session.addInstance (s : Session) (m : Row) : Session :=
  { s with attached := m :: s.attached }

/-- `session.expunge(instance)`: detach the instance from the session. -/
def Session.expunge (s : Session) (m : Row) : Session :=
  { s with attached := s.attached.filter (fun x => x ≠ m) }

/-- `await session.flush()`. -/
def Session.flush (s : Session) : Except Exc Session :=
  match s.flushExc with
  | some e => .error (.sqlalchemy e)
  | none => .ok s

/-- `await session.refresh(instance)`. -/
def Session.refresh (s : Session) (_m : Row) : Except Exc Session :=
  match s.refreshExc with
  | some e => .error (.sqlalchemy e)
  | none => .ok s

/-- `await session.merge(instance)`: returns the merged instance, now
attached to the session. -/
def Session.merge (s : Session) (m : Row) : Except Exc (Row × Session) :=
  match s.mergeExc with
  | some e => .error (.sqlalchemy e)
  | none => .ok (m, s.addInstance m)

/-- `await session.delete(instance)`: marks for deletion (attaching the
instance if it was detached). -/
def Session.deleteInstance (s : Session) (m : Row) : Except Exc Session :=
  match s.deleteExc with
  | some e => .error (.sqlalchemy e)
  | none => .ok (s.addInstance m)

/-- `await session.execute(select)` followed by reading the scalars: the
rows produced by the select, which become attached to the session. -/
def Session.executeSelect (s : Session) (sel : Select) : Except Exc (List Row × Session) :=
  match s.executeExc with
  | some e => .error (.sqlalchemy e)
  | none =>
      let rows := sel.run s.db
      .ok (rows, rows.foldl Session.addInstance s)

/-- `Result.scalar_one_or_none()`: `None` for no rows, the row for exactly
one, and `MultipleResultsFound` (a `SQLAlchemyError`) otherwise. -/
def scalar_one_or_none (rows : List Row) : Except Exc (Option Row) :=
  match rows with
  | [] => .ok none
  | [x] => .ok (some x)
  | _ => .error (.sqlalchemy (.otherError "MultipleResultsFound"))

/-- The repository state: the session and the select statement stored in
`self._select`, plus `id_attribute` inherited from the abstract base
(not under `src/`; it names the id field, `"id"` by default). -/
structure SQLAlchemyRepository where
  session : Session
  selectStmt : Select
  idAttribute : String
deriving DecidableEq, Repr

/-- `SQLAlchemyRepository.__init__`: `self._select = select(self.model_type)
if select_ is None else select_`. -/
def SQLAlchemyRepository.construct (session : Session) (select_ : Option Select)
    (idAttribute : String) : SQLAlchemyRepository :=
  { session := session
    selectStmt := match select_ with | none => selectAll | some s => s
    idAttribute := idAttribute }

/-- `_apply_limit_offset_pagination`: `self._select = self._select.limit(limit).offset(offset)`. -/
def SQLAlchemyRepository.apply_limit_offset_pagination (repo : SQLAlchemyRepository)
    (limit : Int) (offset : Int) : SQLAlchemyRepository :=
  { repo with selectStmt := (repo.selectStmt.setLimit limit).setOffset offset }

/-- `_filter_in_collection`: no-op for an empty collection, otherwise add
`field.in_(values)`. -/
def SQLAlchemyRepository.filter_in_collection (repo : SQLAlchemyRepository)
    (fieldName : String) (values : List Int) : SQLAlchemyRepository :=
  if values.isEmpty then repo
  else { repo with selectStmt := repo.selectStmt.addWhere (.inC fieldName values) }

/-- `_filter_on_datetime_field`, exactly as written in the source:
`if before is not None: ... where(field < before)` and
`if after is not None: ... where(field > before)` — the second comparison
really is against `before` (sqlalchemy.py line 192). -/
def SQLAlchemyRepository.filter_on_datetime_field (repo : SQLAlchemyRepository)
    (fieldName : String) (before : Option Int) (after : Option Int) : SQLAlchemyRepository :=
  let repo1 :=
    match before with
    | some _ => { repo with selectStmt := repo.selectStmt.addWhere (.ltC fieldName before) }
    | none => repo
  match after with
  | some _ => { repo1 with selectStmt := repo1.selectStmt.addWhere (.gtC fieldName before) }
  | none => repo1

/-- `_filter_select_by_kwargs`: add an equality where-clause per keyword
argument, in order. -/
def SQLAlchemyRepository.filter_select_by_kwargs (repo : SQLAlchemyRepository)
    (kwargs : List (String × Int)) : SQLAlchemyRepository :=
  kwargs.foldl
    (fun r kv => { r with selectStmt := r.selectStmt.addWhere (.eqC kv.1 kv.2) }) repo

/-- One iteration of the `match filter_` loop in `list`. -/
def SQLAlchemyRepository.applyFilter (repo : SQLAlchemyRepository) :
    FilterTypes → SQLAlchemyRepository
  | .limitOffset limit offset => repo.apply_limit_offset_pagination limit offset
  | .beforeAfter f b a => repo.filter_on_datetime_field f b a
  | .collectionFilter f vs => repo.filter_in_collection f vs

/-- `SQLAlchemyRepository.add`: attach with strategy `"add"`, flush,
refresh, expunge, return — the whole body inside
`wrap_sqlalchemy_exception`. -/
def SQLAlchemyRepository.add (repo : SQLAlchemyRepository) (data : Row) :
    Except Exc Row × SQLAlchemyRepository :=
  let body : Except Exc (Row × Session) :=
    let s1 := repo.session.addInstance data
    match s1.flush with
    | .error e => .error e
    | .ok s2 =>
        match s2.refresh data with
        | .error e => .error e
        | .ok s3 => .ok (data, s3.expunge data)
  match wrap_sqlalchemy_exception body with
  | .error e => (.error e, repo)
  | .ok (x, s) => (.ok x, { repo with session := s })

/-- `SQLAlchemyRepository.get`: filter the stored select on the id
attribute, execute, `scalar_one_or_none`, `check_not_found`, expunge,
return — the body inside `wrap_sqlalchemy_exception`.  The mutation of
`self._select` persists whether or not the body raises. -/
def SQLAlchemyRepository.get (repo : SQLAlchemyRepository) (id_ : Int) :
    Except Exc Row × SQLAlchemyRepository :=
  let repo1 := repo.filter_select_by_kwargs [(repo.idAttribute, id_)]
  let body : Except Exc (Row × Session) :=
    match repo1.session.executeSelect repo1.selectStmt with
    | .error e => .error e
    | .ok (rows, s) =>
        match scalar_one_or_none rows with
        | .error e => .error e
        | .ok none => .error .notFound
        | .ok (some x) => .ok (x, s.expunge x)
  match wrap_sqlalchemy_exception body with
  | .error e => (.error e, repo1)
  | .ok (x, s) => (.ok x, { repo1 with session := s })

/-- `SQLAlchemyRepository.delete`: `get`, `session.delete`, flush,
expunge, return; the body (including the nested, already-wrapped `get`)
inside `wrap_sqlalchemy_exception`. -/
def SQLAlchemyRepository.delete (repo : SQLAlchemyRepository) (id_ : Int) :
    Except Exc Row × SQLAlchemyRepository :=
  match repo.get id_ with
  | (.error e, repo1) => (wrap_sqlalchemy_exception (α := Row) (.error e), repo1)
  | (.ok inst, repo1) =>
      let body : Except Exc (Row × Session) :=
        match repo1.session.deleteInstance inst with
        | .error e => .error e
        | .ok s2 =>
            match s2.flush with
            | .error e => .error e
            | .ok s3 => .ok (inst, s3.expunge inst)
      match wrap_sqlalchemy_exception body with
      | .error e => (.error e, repo1)
      | .ok (x, s) => (.ok x, { repo1 with session := s })

/-- `SQLAlchemyRepository.list`: translate each filter and the keyword
arguments onto `self._select` (outside the wrap), then execute, collect
the scalars into a list, expunge each, and return — the execution inside
`wrap_sqlalchemy_exception`. -/
def SQLAlchemyRepository.list (repo : SQLAlchemyRepository)
    (filters : List FilterTypes) (kwargs : List (String × Int)) :
    Except Exc (List Row) × SQLAlchemyRepository :=
  let repo1 := (filters.foldl SQLAlchemyRepository.applyFilter repo).filter_select_by_kwargs kwargs
  let body : Except Exc (List Row × Session) :=
    match repo1.session.executeSelect repo1.selectStmt with
    | .error e => .error e
    | .ok (rows, s) => .ok (rows, rows.foldl Session.expunge s)
  match wrap_sqlalchemy_exception body with
  | .error e => (.error e, repo1)
  | .ok (rows, s) => (.ok rows, { repo1 with session := s })

/-- `SQLAlchemyRepository.update`: read the id attribute off the data
(`get_id_attribute_value`, from the abstract base not under `src/`),
`get` it (raises for not found), merge, flush, refresh, expunge,
return — all inside `wrap_sqlalchemy_exception`. -/
def SQLAlchemyRepository.update (repo : SQLAlchemyRepository) (data : Row) :
    Except Exc Row × SQLAlchemyRepository :=
  let id_ := data.get repo.idAttribute
  match repo.get id_ with
  | (.error e, repo1) => (wrap_sqlalchemy_exception (α := Row) (.error e), repo1)
  | (.ok _, repo1) =>
      let body : Except Exc (Row × Session) :=
        match repo1.session.merge data with
        | .error e => .error e
        | .ok (inst, s2) =>
            match s2.flush with
            | .error e => .error e
            | .ok s3 =>
                match s3.refresh inst with
                | .error e => .error e
                | .ok s4 => .ok (inst, s4.expunge inst)
      match wrap_sqlalchemy_exception body with
      | .error e => (.error e, repo1)
      | .ok (x, s) => (.ok x, { repo1 with session := s })

/-- `SQLAlchemyRepository.upsert`: merge, flush, refresh, expunge,
return — all inside `wrap_sqlalchemy_exception`. -/
def SQLAlchemyRepository.upsert (repo : SQLAlchemyRepository) (data : Row) :
    Except Exc Row × SQLAlchemyRepository :=
  let body : Except Exc (Row × Session) :=
    match repo.session.merge data with
    | .error e => .error e
    | .ok (inst, s2) =>
        match s2.flush with
        | .error e => .error e
        | .ok s3 =>
            match s3.refresh inst with
            | .error e => .error e
            | .ok s4 => .ok (inst, s4.expunge inst)
  match wrap_sqlalchemy_exception body with
  | .error e => (.error e, repo)
  | .ok (x, s) => (.ok x, { repo with session := s })

/-- `SQLAlchemyRepository.check_health`: the scalar of
`execute(text("SELECT 1"))` compared with 1. -/
def SQLAlchemyRepository.check_health (s : Session) : Except Exc Bool :=
  match s.selectOneResult with
  | .error e => .error e
  | .ok v => .ok (decide (v = 1))

/-- The application settings object `settings.app` returned by the
health-check handler. -/
structure AppSettings where
  marker : Unit
deriving DecidableEq, Repr

/-- The module-level `settings.app` instance. -/
def settings_app : AppSettings := ⟨()⟩

/-- An exception escaping an HTTP route handler. -/
inductive HttpExc
  | healthCheckFailure (msg : String)
  | otherExc (msg : String)
deriving DecidableEq, Repr

/-- Status code of a handler exception: `HealthCheckFailure` subclasses
`ServiceUnavailableException` (HTTP 503). -/
def HttpExc.statusCode : HttpExc → Nat
  | .healthCheckFailure _ => 503
  | .otherExc _ => 500

/-- `health_check` from `health.py`: inside `contextlib.suppress(Exception)`,
return `settings.app` if `check_health` is truthy; in every other case
(falsy result or suppressed exception) raise `HealthCheckFailure`. -/
def health_check (s : Session) : Except HttpExc AppSettings :=
  match SQLAlchemyRepository.check_health s with
  | .ok true => .ok settings_app
  | .ok false => .error (.healthCheckFailure "DB not ready.")
  | .error _ => .error (.healthCheckFailure "DB not ready.")

/-! ### Application construction: the `Starlite` wrapper and the
`ConfigureApp` plugin. -/

/-- Lifecycle handlers.  The library-provided handlers are named; handlers
supplied by the caller are `user n`. -/
inductive LifeSpanHandler
  | httpClientClose
  | engineDispose
  | redisClose
  | workerStop
  | logConfigConfigure
  | sentryConfigure
  | workerOnAppStartup
  | user (n : Nat)
deriving DecidableEq, Repr

/-- Dependency providers (`starlite.Provide(...)` values). -/
inductive Provide
  | filtersDep
  | sessionDep
  | user (n : Nat)
deriving DecidableEq, Repr

/-- Exception-handler callables. -/
inductive ExceptionHandler
  | loggingExceptionHandler
  | user (n : Nat)
deriving DecidableEq, Repr

/-- Keys of the exception-handler mapping: an HTTP status code or an
exception type. -/
inductive ExcHandlerKey
  | status (code : Nat)
  | excType (n : Nat)
deriving DecidableEq, Repr

/-- Route handlers registered on the application. -/
inductive RouteHandler
  | healthCheckRoute
  | user (n : Nat)
deriving DecidableEq, Repr

/-- ASGI middleware entries. -/
inductive Middleware
  | dbSessionMiddleware
  | user (n : Nat)
deriving DecidableEq, Repr

/-- `before_send` hook callables. -/
inductive BeforeSendHandler
  | transactionManager
  | user (n : Nat)
deriving DecidableEq, Repr

/-- The `AppConfig.before_send` attribute is either a single handler or a
list of handlers. -/
inductive BeforeSendValue
  | single (h : BeforeSendHandler)
  | multiple (hs : List BeforeSendHandler)
deriving DecidableEq, Repr

/-- Response classes. -/
inductive ResponseClass
  | libResponse
  | user (n : Nat)
deriving DecidableEq, Repr

/-- OpenAPI configurations. -/
inductive OpenAPIConfig
  | libOpenapiConfig
  | user (n : Nat)
deriving DecidableEq, Repr

/-- Compression configurations. -/
inductive CompressionConfig
  | libCompressionConfig
  | user (n : Nat)
deriving DecidableEq, Repr

/-- Worker functions registered on the SAQ worker. -/
abbrev WorkerFunction := Nat

/-- `dict.__getitem__`-style lookup in an insertion-ordered mapping. -/
def lookupD {K V : Type} [DecidableEq K] : List (K × V) → K → Option V
  | [], _ => none
  | p :: d, k => if p.1 = k then some p.2 else lookupD d k

/-- `dict.setdefault(k, v)`: leave the mapping unchanged when the key is
present, otherwise insert the key with the given value. -/
def setdefaultD {K V : Type} [DecidableEq K] (d : List (K × V)) (k : K) (v : V) :
    List (K × V) :=
  match lookupD d k with
  | some _ => d
  | none => d ++ [(k, v)]

/-- `starlite.config.app.AppConfig`, reduced to the attributes the
two construction paths touch. -/
structure AppConfig where
  dependencies : List (String × Provide)
  exception_handlers : List (ExcHandlerKey × ExceptionHandler)
  before_send : BeforeSendValue
  on_shutdown : List LifeSpanHandler
  on_startup : List LifeSpanHandler
  route_handlers : List RouteHandler
  middleware : List Middleware
  response_class : Option ResponseClass
  openapi_config : Option OpenAPIConfig
  compression_config : Option CompressionConfig
deriving DecidableEq, Repr

/-- `ConfigureApp.__init__`: `[] if worker_functions is None else
worker_functions`. -/
def ConfigureApp.construct (worker_functions : Option (List WorkerFunction)) :
    List WorkerFunction :=
  match worker_functions with
  | none => []
  | some l => l

/-- `ConfigureApp.__call__` from `init_plugin.py`, step by step in source
order. -/
def ConfigureApp.call (worker_functions : List WorkerFunction)
    (app_config : AppConfig) : AppConfig :=
  let cfg : AppConfig := { app_config with
    dependencies := setdefaultD app_config.dependencies "filters" .filtersDep }
  let cfg : AppConfig := { cfg with
    dependencies := setdefaultD cfg.dependencies "session" .sessionDep }
  let cfg : AppConfig := { cfg with
    exception_handlers := setdefaultD cfg.exception_handlers (.status 500)
      .loggingExceptionHandler }
  let cfg : AppConfig := { cfg with
    before_send :=
      match cfg.before_send with
      | .single h => .multiple [h, .transactionManager]
      | .multiple hs => .multiple (hs ++ [.transactionManager]) }
  let cfg : AppConfig := { cfg with
    on_shutdown := cfg.on_shutdown ++ [.httpClientClose, .engineDispose, .redisClose] }
  let cfg : AppConfig := { cfg with
    on_startup := cfg.on_startup ++ [.logConfigConfigure, .sentryConfigure] }
  let cfg :=
    if worker_functions.isEmpty then cfg
    else { cfg with
      on_shutdown := cfg.on_shutdown ++ [.workerStop]
      on_startup := cfg.on_startup ++ [.workerOnAppStartup] }
  let cfg : AppConfig := { cfg with route_handlers := cfg.route_handlers ++ [.healthCheckRoute] }
  let cfg :=
    match cfg.response_class with
    | none => { cfg with response_class := some .libResponse }
    | some _ => cfg
  match cfg.openapi_config with
  | none => { cfg with openapi_config := some .libOpenapiConfig }
  | some _ => cfg

/-- The caller-facing parameters of the wrapper `Starlite.__init__` that
the claims concern (all optional parameters default to `None`). -/
structure StarliteInitArgs where
  dependencies : Option (List (String × Provide))
  exception_handlers : Option (List (ExcHandlerKey × ExceptionHandler))
  middleware : Option (List Middleware)
  on_shutdown : Option (List LifeSpanHandler)
  on_startup : Option (List LifeSpanHandler)
  route_handlers : List RouteHandler
  worker_functions : Option (List WorkerFunction)
deriving DecidableEq, Repr

/-- `x or []` / `x or {}` on an optional argument. -/
def orEmpty {α : Type} (x : Option (List α)) : List α :=
  match x with
  | none => []
  | some l => l

/-- The wrapper `Starlite.__init__` from `starlite_lib/starlite/app.py`:
the configuration it hands to `starlite.Starlite.__init__`, step by step
in source order.  Arguments the wrapper does not expose keep the parent's
defaults (`before_send` empty); `compression_config`, `openapi_config`
and `response_class` are set internally. -/
def Starlite.construct (a : StarliteInitArgs) : AppConfig :=
  let dependencies := orEmpty a.dependencies
  let dependencies := setdefaultD dependencies "filters" .filtersDep
  let dependencies := setdefaultD dependencies "session" .sessionDep
  let exception_handlers := orEmpty a.exception_handlers
  let exception_handlers := setdefaultD exception_handlers (.status 500)
    .loggingExceptionHandler
  let middleware := Middleware.dbSessionMiddleware :: orEmpty a.middleware
  let on_shutdown := orEmpty a.on_shutdown
  let on_shutdown := on_shutdown ++ [.httpClientClose, .engineDispose, .redisClose]
  let on_startup := orEmpty a.on_startup
  let on_startup := on_startup ++ [.logConfigConfigure, .sentryConfigure]
  let worker_functions := orEmpty a.worker_functions
  let on_shutdown :=
    if worker_functions.isEmpty then on_shutdown else on_shutdown ++ [.workerStop]
  let on_startup :=
    if worker_functions.isEmpty then on_startup
    else on_startup ++ [.workerOnAppStartup]
  let route_handlers := a.route_handlers ++ [.healthCheckRoute]
  { dependencies := dependencies
    exception_handlers := exception_handlers
    before_send := .multiple []
    on_shutdown := on_shutdown
    on_startup := on_startup
    route_handlers := route_handlers
    middleware := middleware
    response_class := some .libResponse
    openapi_config := some .libOpenapiConfig
    compression_config := some .libCompressionConfig }

/-! ### Helper lemmas -/

theorem wrap_ok {α : Type} (a : α) :
    wrap_sqlalchemy_exception (.ok a) = .ok a := rfl

theorem wrap_error_sql {α : Type} (e : SqlExc) :
    wrap_sqlalchemy_exception (α := α) (.error (.sqlalchemy e)) = .error (wrapErr e) := by
  cases e <;> rfl

theorem wrap_error_notFound {α : Type} :
    wrap_sqlalchemy_exception (α := α) (.error .notFound) = .error .notFound := rfl

theorem wrap_error_conflict {α : Type} (e : SqlExc) :
    wrap_sqlalchemy_exception (α := α) (.error (.repositoryConflict e)) =
      .error (.repositoryConflict e) := rfl

theorem wrap_error_repository {α : Type} (m : String) (e : SqlExc) :
    wrap_sqlalchemy_exception (α := α) (.error (.repository m e)) =
      .error (.repository m e) := rfl

theorem wrapErr_ne_sql (e se : SqlExc) : wrapErr e ≠ .sqlalchemy se := by
  cases e <;> simp [wrapErr]

/-- `wrap_sqlalchemy_exception` never lets a `SQLAlchemyError` through. -/
theorem wrap_ne_sql {α : Type} (r : Except Exc α) (se : SqlExc) :
    wrap_sqlalchemy_exception r ≠ .error (.sqlalchemy se) := by
  rcases r with e | a
  · rcases e with e' | e' | ⟨m, e'⟩ | _
    · cases e' <;> simp [wrap_sqlalchemy_exception]
    · simp [wrap_sqlalchemy_exception]
    · simp [wrap_sqlalchemy_exception]
    · simp [wrap_sqlalchemy_exception]
  · simp [wrap_sqlalchemy_exception]

theorem applyFilter_session (repo : SQLAlchemyRepository) (f : FilterTypes) :
    (repo.applyFilter f).session = repo.session := by
  rcases f with ⟨l, o⟩ | ⟨fn, b, a⟩ | ⟨fn, vs⟩
  · rfl
  · simp only [SQLAlchemyRepository.applyFilter, SQLAlchemyRepository.filter_on_datetime_field]
    cases b <;> cases a <;> rfl
  · simp only [SQLAlchemyRepository.applyFilter, SQLAlchemyRepository.filter_in_collection]
    by_cases h : vs.isEmpty <;> simp [h]

theorem foldl_applyFilter_session (fs : List FilterTypes) (repo : SQLAlchemyRepository) :
    (fs.foldl SQLAlchemyRepository.applyFilter repo).session = repo.session := by
  induction fs generalizing repo with
  | nil => rfl
  | cons f fs ih => rw [List.foldl_cons, ih, applyFilter_session]

theorem filter_select_by_kwargs_session (repo : SQLAlchemyRepository)
    (kw : List (String × Int)) :
    (repo.filter_select_by_kwargs kw).session = repo.session := by
  induction kw generalizing repo with
  | nil => rfl
  | cons p kw ih =>
      simp only [SQLAlchemyRepository.filter_select_by_kwargs, List.foldl_cons] at *
      rw [ih]

theorem filter_select_by_kwargs_idAttribute (repo : SQLAlchemyRepository)
    (kw : List (String × Int)) :
    (repo.filter_select_by_kwargs kw).idAttribute = repo.idAttribute := by
  induction kw generalizing repo with
  | nil => rfl
  | cons p kw ih =>
      simp only [SQLAlchemyRepository.filter_select_by_kwargs, List.foldl_cons] at *
      rw [ih]

theorem add_ne_sql (repo : SQLAlchemyRepository) (data : Row) (se : SqlExc) :
    (repo.add data).1 ≠ .error (.sqlalchemy se) := by
  simp only [SQLAlchemyRepository.add]
  split
  · next e heq =>
      intro hh
      simp only at hh
      exact wrap_ne_sql _ se ((Except.error.inj hh) ▸ heq)
  · next x s heq => simp

theorem get_ne_sql (repo : SQLAlchemyRepository) (id_ : Int) (se : SqlExc) :
    (repo.get id_).1 ≠ .error (.sqlalchemy se) := by
  simp only [SQLAlchemyRepository.get]
  split
  · next e heq =>
      intro hh
      simp only at hh
      exact wrap_ne_sql _ se ((Except.error.inj hh) ▸ heq)
  · next x s heq => simp

theorem add_flush_raises (repo : SQLAlchemyRepository) (data : Row) (e : SqlExc)
    (h : repo.session.flushExc = some e) :
    (repo.add data).1 = .error (wrapErr e) := by
  have hflush : (repo.session.addInstance data).flush = .error (.sqlalchemy e) := by
    simp [Session.addInstance, Session.flush, h]
  simp [SQLAlchemyRepository.add, hflush, wrap_error_sql]

theorem get_execute_raises (repo : SQLAlchemyRepository) (id_ : Int) (e : SqlExc)
    (h : repo.session.executeExc = some e) :
    (repo.get id_).1 = .error (wrapErr e) := by
  have hexec : ∀ sel,
      (repo.filter_select_by_kwargs [(repo.idAttribute, id_)]).session.executeSelect sel
        = .error (.sqlalchemy e) := by
    intro sel
    rw [filter_select_by_kwargs_session]
    simp [Session.executeSelect, h]
  simp [SQLAlchemyRepository.get, hexec, wrap_error_sql]

theorem wrap_error_wrapErr {α : Type} (e : SqlExc) :
    wrap_sqlalchemy_exception (α := α) (.error (wrapErr e)) = .error (wrapErr e) := by
  cases e <;> rfl

theorem delete_ne_sql (repo : SQLAlchemyRepository) (id_ : Int) (se : SqlExc) :
    (repo.delete id_).1 ≠ .error (.sqlalchemy se) := by
  simp only [SQLAlchemyRepository.delete]
  split
  · exact wrap_ne_sql _ se
  · split
    · next e heq =>
        intro hh
        simp only at hh
        exact wrap_ne_sql _ se ((Except.error.inj hh) ▸ heq)
    · simp

theorem list_ne_sql (repo : SQLAlchemyRepository) (fs : List FilterTypes)
    (kw : List (String × Int)) (se : SqlExc) :
    (repo.list fs kw).1 ≠ .error (.sqlalchemy se) := by
  simp only [SQLAlchemyRepository.list]
  split
  · next e heq =>
      intro hh
      simp only at hh
      exact wrap_ne_sql _ se ((Except.error.inj hh) ▸ heq)
  · simp

theorem update_ne_sql (repo : SQLAlchemyRepository) (data : Row) (se : SqlExc) :
    (repo.update data).1 ≠ .error (.sqlalchemy se) := by
  simp only [SQLAlchemyRepository.update]
  split
  · exact wrap_ne_sql _ se
  · split
    · next e heq =>
        intro hh
        simp only at hh
        exact wrap_ne_sql _ se ((Except.error.inj hh) ▸ heq)
    · simp

theorem upsert_ne_sql (repo : SQLAlchemyRepository) (data : Row) (se : SqlExc) :
    (repo.upsert data).1 ≠ .error (.sqlalchemy se) := by
  simp only [SQLAlchemyRepository.upsert]
  split
  · next e heq =>
      intro hh
      simp only at hh
      exact wrap_ne_sql _ se ((Except.error.inj hh) ▸ heq)
  · simp

theorem delete_execute_raises (repo : SQLAlchemyRepository) (id_ : Int) (e : SqlExc)
    (h : repo.session.executeExc = some e) :
    (repo.delete id_).1 = .error (wrapErr e) := by
  have hget := get_execute_raises repo id_ e h
  have hpair : repo.get id_ = (.error (wrapErr e), (repo.get id_).2) := by
    rw [← hget]
  simp only [SQLAlchemyRepository.delete]
  rw [hpair]
  simp [wrap_error_wrapErr]

theorem update_execute_raises (repo : SQLAlchemyRepository) (data : Row) (e : SqlExc)
    (h : repo.session.executeExc = some e) :
    (repo.update data).1 = .error (wrapErr e) := by
  have hget := get_execute_raises repo (data.get repo.idAttribute) e h
  have hpair : repo.get (data.get repo.idAttribute)
      = (.error (wrapErr e), (repo.get (data.get repo.idAttribute)).2) := by
    rw [← hget]
  simp only [SQLAlchemyRepository.update]
  rw [hpair]
  simp [wrap_error_wrapErr]

theorem list_execute_raises (repo : SQLAlchemyRepository) (fs : List FilterTypes)
    (kw : List (String × Int)) (e : SqlExc)
    (h : repo.session.executeExc = some e) :
    (repo.list fs kw).1 = .error (wrapErr e) := by
  have hexec : ∀ sel,
      ((fs.foldl SQLAlchemyRepository.applyFilter repo).filter_select_by_kwargs
          kw).session.executeSelect sel = .error (.sqlalchemy e) := by
    intro sel
    rw [filter_select_by_kwargs_session, foldl_applyFilter_session]
    simp [Session.executeSelect, h]
  simp [SQLAlchemyRepository.list, hexec, wrap_error_sql]

theorem upsert_merge_raises (repo : SQLAlchemyRepository) (data : Row) (e : SqlExc)
    (h : repo.session.mergeExc = some e) :
    (repo.upsert data).1 = .error (wrapErr e) := by
  have hmerge : repo.session.merge data = .error (.sqlalchemy e) := by
    simp [Session.merge, h]
  simp [SQLAlchemyRepository.upsert, hmerge, wrap_error_sql]

/-! ### C2 — exception wrapping -/

/-- C2: for each of `add`, `delete`, `get`, `list`, `update` and `upsert`:
no `SQLAlchemyError` escapes unwrapped; when the underlying ORM call
raises, the operation raises the wrapped exception — which is
`RepositoryConflictException` chained from the original for an
`IntegrityError` and `RepositoryException` chained from the original for
any other `SQLAlchemyError` (the last two conjuncts spell out `wrapErr`). -/
theorem C2_sqlalchemy_errors_wrapped (repo : SQLAlchemyRepository) (data : Row)
    (id_ : Int) (fs : List FilterTypes) (kw : List (String × Int)) :
    (∀ se, (repo.add data).1 ≠ .error (.sqlalchemy se))
    ∧ (∀ se, (repo.delete id_).1 ≠ .error (.sqlalchemy se))
    ∧ (∀ se, (repo.get id_).1 ≠ .error (.sqlalchemy se))
    ∧ (∀ se, (repo.list fs kw).1 ≠ .error (.sqlalchemy se))
    ∧ (∀ se, (repo.update data).1 ≠ .error (.sqlalchemy se))
    ∧ (∀ se, (repo.upsert data).1 ≠ .error (.sqlalchemy se))
    ∧ (∀ e, repo.session.flushExc = some e → (repo.add data).1 = .error (wrapErr e))
    ∧ (∀ e, repo.session.executeExc = some e → (repo.get id_).1 = .error (wrapErr e))
    ∧ (∀ e, repo.session.executeExc = some e → (repo.delete id_).1 = .error (wrapErr e))
    ∧ (∀ e, repo.session.executeExc = some e → (repo.list fs kw).1 = .error (wrapErr e))
    ∧ (∀ e, repo.session.executeExc = some e → (repo.update data).1 = .error (wrapErr e))
    ∧ (∀ e, repo.session.mergeExc = some e → (repo.upsert data).1 = .error (wrapErr e))
    ∧ (∀ m, wrapErr (.integrityError m) = .repositoryConflict (.integrityError m))
    ∧ (∀ m, wrapErr (.otherError m)
          = .repository ("An exception occurred: " ++ m) (.otherError m)) :=
  ⟨fun se => add_ne_sql repo data se,
   fun se => delete_ne_sql repo id_ se,
   fun se => get_ne_sql repo id_ se,
   fun se => list_ne_sql repo fs kw se,
   fun se => update_ne_sql repo data se,
   fun se => upsert_ne_sql repo data se,
   fun e h => add_flush_raises repo data e h,
   fun e h => get_execute_raises repo id_ e h,
   fun e h => delete_execute_raises repo id_ e h,
   fun e h => list_execute_raises repo fs kw e h,
   fun e h => update_execute_raises repo data e h,
   fun e h => upsert_merge_raises repo data e h,
   fun _ => rfl,
   fun _ => rfl⟩

/-- Witness for C2 at concrete repositories: a flush raising
`IntegrityError "dup"` makes `add` raise the conflict exception chained
from it, and an execute raising `SQLAlchemyError "down"` makes `list`
raise the repository exception chained from it. -/
theorem C2_sqlalchemy_errors_wrapped_witness :
    ((SQLAlchemyRepository.construct
        { db := [], attached := [], flushExc := some (.integrityError "dup"),
          refreshExc := none, executeExc := none, deleteExc := none,
          mergeExc := none, selectOneResult := .ok 1 }
        none "id").add ⟨[("id", 1)]⟩).1
      = .error (.repositoryConflict (.integrityError "dup"))
    ∧ ((SQLAlchemyRepository.construct
        { db := [], attached := [], flushExc := none,
          refreshExc := none, executeExc := some (.otherError "down"),
          deleteExc := none, mergeExc := none, selectOneResult := .ok 1 }
        none "id").list [] []).1
      = .error (.repository "An exception occurred: down" (.otherError "down")) :=
  ⟨(C2_sqlalchemy_errors_wrapped
      (SQLAlchemyRepository.construct
        { db := [], attached := [], flushExc := some (.integrityError "dup"),
          refreshExc := none, executeExc := none, deleteExc := none,
          mergeExc := none, selectOneResult := .ok 1 }
        none "id") ⟨[("id", 1)]⟩ 0 [] []).2.2.2.2.2.2.1 (.integrityError "dup") rfl,
   (C2_sqlalchemy_errors_wrapped
      (SQLAlchemyRepository.construct
        { db := [], attached := [], flushExc := none,
          refreshExc := none, executeExc := some (.otherError "down"),
          deleteExc := none, mergeExc := none, selectOneResult := .ok 1 }
        none "id") ⟨[("id", 1)]⟩ 0 [] []).2.2.2.2.2.2.2.2.2.1 (.otherError "down") rfl⟩

/-! ### C1 — the `BeforeAfter` filter -/

/-- C1: counter-evidence for the claim that a `BeforeAfter(field_name,
before, after)` filter restricts by `field > after` when `after` is not
`None`.  At `BeforeAfter "ts" None (Some 5)` the code adds the clause
`ts > before`, i.e. a comparison against `None` (sqlalchemy.py line 192
uses `before` in the `after` branch), so a row with `ts = 10` — which the
claim requires to be returned — is filtered out and `list` returns `[]`. -/
theorem C1_filter_after_uses_before :
    (((SQLAlchemyRepository.construct
          { db := [⟨[("ts", 10)]⟩], attached := [], flushExc := none,
            refreshExc := none, executeExc := none, deleteExc := none,
            mergeExc := none, selectOneResult := .ok 1 }
          none "id").filter_on_datetime_field "ts" none (some 5)).selectStmt.wheres
        = [WhereClause.gtC "ts" none])
    ∧ ((SQLAlchemyRepository.construct
          { db := [⟨[("ts", 10)]⟩], attached := [], flushExc := none,
            refreshExc := none, executeExc := none, deleteExc := none,
            mergeExc := none, selectOneResult := .ok 1 }
          none "id").list [.beforeAfter "ts" none (some 5)] []).1 = .ok [] := by
  constructor
  · rfl
  · rfl

/-! ### C4 — the health-check handler -/

/-- C4: if running the check statement yields the scalar 1 the handler
returns the application settings; in every other case — a different
scalar or any raised exception — it raises `HealthCheckFailure`, a 503
service-unavailable exception, and nothing else escapes. -/
theorem C4_health_check_behaviour (s : Session) :
    (s.selectOneResult = .ok 1 → health_check s = .ok settings_app)
    ∧ (s.selectOneResult ≠ .ok 1 →
        health_check s = .error (.healthCheckFailure "DB not ready."))
    ∧ (HttpExc.healthCheckFailure "DB not ready.").statusCode = 503 := by
  refine ⟨?_, ?_, rfl⟩
  · intro h
    simp [health_check, SQLAlchemyRepository.check_health, h]
  · intro h
    rcases hr : s.selectOneResult with e | v
    · simp [health_check, SQLAlchemyRepository.check_health, hr]
    · rw [hr] at h
      have hv : v ≠ 1 := by
        intro hv; exact h (by rw [hv])
      simp [health_check, SQLAlchemyRepository.check_health, hr, hv]

/-- Witness for C4 at concrete sessions: a healthy database (scalar 1)
and a failing one (the execute raises). -/
theorem C4_health_check_behaviour_witness :
    health_check
        { db := [], attached := [], flushExc := none, refreshExc := none,
          executeExc := none, deleteExc := none, mergeExc := none,
          selectOneResult := .ok 1 } = .ok settings_app
    ∧ health_check
        { db := [], attached := [], flushExc := none, refreshExc := none,
          executeExc := none, deleteExc := none, mergeExc := none,
          selectOneResult := .error (.sqlalchemy (.otherError "boom")) }
        = .error (.healthCheckFailure "DB not ready.") :=
  ⟨(C4_health_check_behaviour _).1 rfl,
   (C4_health_check_behaviour _).2.1 (by decide)⟩

/-! ### C3 — `list` filter semantics -/

theorem filter_select_by_kwargs_selectStmt (repo : SQLAlchemyRepository)
    (kw : List (String × Int)) :
    (repo.filter_select_by_kwargs kw).selectStmt
      = { wheres := repo.selectStmt.wheres ++ kw.map (fun p => WhereClause.eqC p.1 p.2),
          limit := repo.selectStmt.limit, offset := repo.selectStmt.offset } := by
  induction kw generalizing repo with
  | nil => simp [SQLAlchemyRepository.filter_select_by_kwargs]
  | cons p kw ih =>
      simp only [SQLAlchemyRepository.filter_select_by_kwargs, List.foldl_cons] at *
      rw [ih]
      simp [Select.addWhere]

theorem all_map_eqC_eval (kw : List (String × Int)) (r : Row) :
    (kw.map (fun p => WhereClause.eqC p.1 p.2)).all (fun c => c.eval r)
      = kw.all (fun p => decide (r.get p.1 = p.2)) := by
  induction kw with
  | nil => rfl
  | cons p kw ih =>
      simp only [List.map_cons, List.all_cons]
      rw [ih]
      rfl

theorem run_in_and_eq_clauses (f : String) (vs : List Int) (kw : List (String × Int))
    (l o : Int) (db : List Row) :
    Select.run { wheres := .inC f vs :: kw.map (fun p => WhereClause.eqC p.1 p.2),
                 limit := some l, offset := some o } db
      = ((db.filter (fun r =>
            vs.contains (r.get f)
            && kw.all (fun p => decide (r.get p.1 = p.2)))).drop o.toNat).take l.toNat := by
  have hfilter : db.filter
        (fun r => (WhereClause.inC f vs :: kw.map (fun p => WhereClause.eqC p.1 p.2)).all
          (fun c => c.eval r))
      = db.filter (fun r =>
          vs.contains (r.get f) && kw.all (fun p => decide (r.get p.1 = p.2))) := by
    apply List.filter_congr
    intro r _
    simp only [List.all_cons]
    rw [all_map_eqC_eval]
    rfl
  simp only [Select.run, hfilter]

/-- C3: a `LimitOffset(limit, offset)` filter applies limit and offset to
the select, a non-empty `CollectionFilter(field_name, values)` restricts
to rows whose field is a member of `values`, each keyword argument
`key=val` restricts to rows whose `key` attribute equals `val`, and the
call returns exactly the rows of the resulting select, as a list. -/
theorem C3_list_filter_semantics (s : Session) (l o : Int) (f : String)
    (vs : List Int) (kw : List (String × Int)) (ida : String)
    (hexec : s.executeExc = none) (hvs : vs ≠ []) :
    ((SQLAlchemyRepository.construct s none ida).list
        [.limitOffset l o, .collectionFilter f vs] kw).1
      = .ok (((s.db.filter (fun r =>
            vs.contains (r.get f)
            && kw.all (fun p => decide (r.get p.1 = p.2)))).drop o.toNat).take l.toNat) := by
  have hvs' : vs.isEmpty = false := by
    cases vs with
    | nil => exact absurd rfl hvs
    | cons a t => rfl
  have hsel : (([FilterTypes.limitOffset l o, FilterTypes.collectionFilter f vs].foldl
        SQLAlchemyRepository.applyFilter
        (SQLAlchemyRepository.construct s none ida)).filter_select_by_kwargs kw).selectStmt
      = { wheres := WhereClause.inC f vs :: kw.map (fun p => WhereClause.eqC p.1 p.2),
          limit := some l, offset := some o } := by
    rw [filter_select_by_kwargs_selectStmt]
    simp [SQLAlchemyRepository.applyFilter, SQLAlchemyRepository.apply_limit_offset_pagination,
      SQLAlchemyRepository.filter_in_collection, hvs', SQLAlchemyRepository.construct,
      selectAll, Select.setLimit, Select.setOffset, Select.addWhere]
  have hsess : (([FilterTypes.limitOffset l o, FilterTypes.collectionFilter f vs].foldl
        SQLAlchemyRepository.applyFilter
        (SQLAlchemyRepository.construct s none ida)).filter_select_by_kwargs kw).session
      = s := by
    rw [filter_select_by_kwargs_session, foldl_applyFilter_session]
    rfl
  simp only [SQLAlchemyRepository.list, hsel, hsess]
  simp [Session.executeSelect, hexec, run_in_and_eq_clauses, wrap_sqlalchemy_exception]

/-- Witness for C3: on a concrete four-row table, a limit of 2 with offset
1, a collection filter and a keyword argument produce exactly the
expected page of matching rows. -/
theorem C3_list_filter_semantics_witness :
    ((SQLAlchemyRepository.construct
        { db := [⟨[("id", 1), ("kind", 7)]⟩, ⟨[("id", 2), ("kind", 7)]⟩,
                 ⟨[("id", 3), ("kind", 8)]⟩, ⟨[("id", 4), ("kind", 7)]⟩],
          attached := [], flushExc := none, refreshExc := none,
          executeExc := none, deleteExc := none, mergeExc := none,
          selectOneResult := .ok 1 }
        none "id").list
        [.limitOffset 2 1, .collectionFilter "id" [1, 2, 4]] [("kind", 7)]).1
      = .ok [⟨[("id", 2), ("kind", 7)]⟩, ⟨[("id", 4), ("kind", 7)]⟩] := by
  rw [C3_list_filter_semantics _ 2 1 "id" [1, 2, 4] [("kind", 7)] "id" rfl (by decide)]
  decide

/-! ### C9 — returned instances are expunged -/

theorem wrap_eq_ok {α : Type} {r : Except Exc α} {v : α}
    (h : wrap_sqlalchemy_exception r = .ok v) : r = .ok v := by
  rcases r with e | a
  · rcases e with e' | e' | ⟨m, e'⟩ | _
    · cases e' <;> simp [wrap_sqlalchemy_exception] at h
    · simp [wrap_sqlalchemy_exception] at h
    · simp [wrap_sqlalchemy_exception] at h
    · simp [wrap_sqlalchemy_exception] at h
  · simpa [wrap_sqlalchemy_exception] using h

theorem wrap_ne_ok_of_error {α : Type} (e : Exc) (x : α) :
    wrap_sqlalchemy_exception (.error e) ≠ .ok x := by
  intro h
  exact absurd (wrap_eq_ok h) (by simp)

theorem not_mem_expunge_self (s : Session) (x : Row) :
    x ∉ (s.expunge x).attached := by
  simp [Session.expunge, List.mem_filter]

theorem not_mem_expunge_of_not_mem {s : Session} {x : Row} (y : Row)
    (h : x ∉ s.attached) : x ∉ (s.expunge y).attached := by
  simp only [Session.expunge, List.mem_filter]
  intro hx
  exact absurd hx.1 h

theorem not_mem_foldl_expunge_of_not_mem (rows : List Row) (x : Row) :
    ∀ s : Session, x ∉ s.attached → x ∉ (rows.foldl Session.expunge s).attached := by
  induction rows with
  | nil => exact fun s h => h
  | cons r rows ih =>
      intro s h
      rw [List.foldl_cons]
      exact ih _ (not_mem_expunge_of_not_mem r h)

theorem not_mem_foldl_expunge_of_mem (rows : List Row) (x : Row) :
    ∀ s : Session, x ∈ rows → x ∉ (rows.foldl Session.expunge s).attached := by
  induction rows with
  | nil => intro s h; cases h
  | cons r rows ih =>
      intro s h
      rw [List.foldl_cons]
      rcases List.mem_cons.mp h with heq | hmem
      · subst heq
        exact not_mem_foldl_expunge_of_not_mem rows x _ (not_mem_expunge_self s x)
      · exact ih _ hmem

theorem add_ok_detached (repo : SQLAlchemyRepository) (data : Row) (x : Row)
    (repo' : SQLAlchemyRepository) (h : repo.add data = (.ok x, repo')) :
    x ∉ repo'.session.attached := by
  simp only [SQLAlchemyRepository.add] at h
  split at h
  · next e heq =>
      have h1 : (Except.error e : Except Exc Row) = .ok x := congrArg Prod.fst h
      exact absurd h1 (by simp)
  · next x' s heq =>
      have h1 : (Except.ok x' : Except Exc Row) = .ok x := congrArg Prod.fst h
      have hx : x' = x := Except.ok.inj h1
      have h2 : { repo with session := s } = repo' := congrArg Prod.snd h
      have hbody := wrap_eq_ok heq
      split at hbody
      · exact absurd hbody (by simp)
      · split at hbody
        · exact absurd hbody (by simp)
        · next s3 heq3 =>
            have hp := Except.ok.inj hbody
            have hx' : data = x' := congrArg Prod.fst hp
            have hs : s3.expunge data = s := congrArg Prod.snd hp
            rw [← h2]
            show x ∉ s.attached
            rw [← hs, ← hx, ← hx']
            exact not_mem_expunge_self s3 data

theorem get_ok_detached (repo : SQLAlchemyRepository) (id_ : Int) (x : Row)
    (repo' : SQLAlchemyRepository) (h : repo.get id_ = (.ok x, repo')) :
    x ∉ repo'.session.attached := by
  simp only [SQLAlchemyRepository.get] at h
  split at h
  · next e heq =>
      have h1 : (Except.error e : Except Exc Row) = .ok x := congrArg Prod.fst h
      exact absurd h1 (by simp)
  · next x' s heq =>
      have h1 : (Except.ok x' : Except Exc Row) = .ok x := congrArg Prod.fst h
      have hx : x' = x := Except.ok.inj h1
      have h2 := congrArg Prod.snd h
      simp only at h2
      have hbody := wrap_eq_ok heq
      split at hbody
      · exact absurd hbody (by simp)
      · split at hbody
        · exact absurd hbody (by simp)
        · exact absurd hbody (by simp)
        · next rows s0 hrows heq0 =>
            have hp := Except.ok.inj hbody
            have hx' := congrArg Prod.fst hp
            have hs := congrArg Prod.snd hp
            simp only at hx' hs
            rw [← h2]
            show x ∉ _
            rw [← hs, ← hx, ← hx']
            exact not_mem_expunge_self _ _

theorem list_ok_detached (repo : SQLAlchemyRepository) (fs : List FilterTypes)
    (kw : List (String × Int)) (xs : List Row) (repo' : SQLAlchemyRepository)
    (h : repo.list fs kw = (.ok xs, repo')) :
    ∀ x ∈ xs, x ∉ repo'.session.attached := by
  simp only [SQLAlchemyRepository.list] at h
  split at h
  · next e heq =>
      have h1 : (Except.error e : Except Exc (List Row)) = .ok xs := congrArg Prod.fst h
      exact absurd h1 (by simp)
  · next xs' s heq =>
      have h1 : (Except.ok xs' : Except Exc (List Row)) = .ok xs := congrArg Prod.fst h
      have hx : xs' = xs := Except.ok.inj h1
      have h2 := congrArg Prod.snd h
      simp only at h2
      have hbody := wrap_eq_ok heq
      split at hbody
      · exact absurd hbody (by simp)
      · next rows s0 heq0 =>
          have hp := Except.ok.inj hbody
          have hx' : rows = xs' := congrArg Prod.fst hp
          have hs : rows.foldl Session.expunge s0 = s := congrArg Prod.snd hp
          intro x hmem
          rw [← h2]
          show x ∉ s.attached
          rw [← hs]
          exact not_mem_foldl_expunge_of_mem rows x s0 (by rw [hx', hx]; exact hmem)

theorem delete_ok_detached (repo : SQLAlchemyRepository) (id_ : Int) (x : Row)
    (repo' : SQLAlchemyRepository) (h : repo.delete id_ = (.ok x, repo')) :
    x ∉ repo'.session.attached := by
  simp only [SQLAlchemyRepository.delete] at h
  split at h
  · next e repo1 heq =>
      have h1 := congrArg Prod.fst h
      simp only at h1
      exact absurd h1 (wrap_ne_ok_of_error _ _)
  · next inst repo1 heq =>
      split at h
      · next e heq2 =>
          have h1 : (Except.error e : Except Exc Row) = .ok x := congrArg Prod.fst h
          exact absurd h1 (by simp)
      · next x' s heq2 =>
          have h1 : (Except.ok x' : Except Exc Row) = .ok x := congrArg Prod.fst h
          have hx : x' = x := Except.ok.inj h1
          have h2 := congrArg Prod.snd h
          simp only at h2
          have hbody := wrap_eq_ok heq2
          split at hbody
          · exact absurd hbody (by simp)
          · split at hbody
            · exact absurd hbody (by simp)
            · next s3 heq3 =>
                have hp := Except.ok.inj hbody
                have hx' : inst = x' := congrArg Prod.fst hp
                have hs : s3.expunge inst = s := congrArg Prod.snd hp
                rw [← h2]
                show x ∉ s.attached
                rw [← hs, ← hx, ← hx']
                exact not_mem_expunge_self s3 inst

theorem update_ok_detached (repo : SQLAlchemyRepository) (data : Row) (x : Row)
    (repo' : SQLAlchemyRepository) (h : repo.update data = (.ok x, repo')) :
    x ∉ repo'.session.attached := by
  simp only [SQLAlchemyRepository.update] at h
  split at h
  · next e repo1 heq =>
      have h1 := congrArg Prod.fst h
      simp only at h1
      exact absurd h1 (wrap_ne_ok_of_error _ _)
  · next inst repo1 heq =>
      split at h
      · next e heq2 =>
          have h1 : (Except.error e : Except Exc Row) = .ok x := congrArg Prod.fst h
          exact absurd h1 (by simp)
      · next x' s heq2 =>
          have h1 : (Except.ok x' : Except Exc Row) = .ok x := congrArg Prod.fst h
          have hx : x' = x := Except.ok.inj h1
          have h2 := congrArg Prod.snd h
          simp only at h2
          have hbody := wrap_eq_ok heq2
          split at hbody
          · exact absurd hbody (by simp)
          · next inst2 s2 heq3 =>
              split at hbody
              · exact absurd hbody (by simp)
              · split at hbody
                · exact absurd hbody (by simp)
                · next s4 heq4 =>
                    have hp := Except.ok.inj hbody
                    have hx' : inst2 = x' := congrArg Prod.fst hp
                    have hs : s4.expunge inst2 = s := congrArg Prod.snd hp
                    rw [← h2]
                    show x ∉ s.attached
                    rw [← hs, ← hx, ← hx']
                    exact not_mem_expunge_self s4 inst2

theorem upsert_ok_detached (repo : SQLAlchemyRepository) (data : Row) (x : Row)
    (repo' : SQLAlchemyRepository) (h : repo.upsert data = (.ok x, repo')) :
    x ∉ repo'.session.attached := by
  simp only [SQLAlchemyRepository.upsert] at h
  split at h
  · next e heq =>
      have h1 : (Except.error e : Except Exc Row) = .ok x := congrArg Prod.fst h
      exact absurd h1 (by simp)
  · next x' s heq =>
      have h1 : (Except.ok x' : Except Exc Row) = .ok x := congrArg Prod.fst h
      have hx : x' = x := Except.ok.inj h1
      have h2 := congrArg Prod.snd h
      simp only at h2
      have hbody := wrap_eq_ok heq
      split at hbody
      · exact absurd hbody (by simp)
      · next inst2 s2 heq3 =>
          split at hbody
          · exact absurd hbody (by simp)
          · split at hbody
            · exact absurd hbody (by simp)
            · next s4 heq4 =>
                have hp := Except.ok.inj hbody
                have hx' : inst2 = x' := congrArg Prod.fst hp
                have hs : s4.expunge inst2 = s := congrArg Prod.snd hp
                rw [← h2]
                show x ∉ s.attached
                rw [← hs, ← hx, ← hx']
                exact not_mem_expunge_self s4 inst2

/-- C9: every instance returned by `add`, `delete`, `get`, `list`,
`update` or `upsert` has been expunged from the session: it is absent
from the identity map of the resulting session state. -/
theorem C9_returned_instances_detached (repo : SQLAlchemyRepository) (data : Row)
    (id_ : Int) (fs : List FilterTypes) (kw : List (String × Int)) :
    (∀ x repo', repo.add data = (.ok x, repo') → x ∉ repo'.session.attached)
    ∧ (∀ x repo', repo.delete id_ = (.ok x, repo') → x ∉ repo'.session.attached)
    ∧ (∀ x repo', repo.get id_ = (.ok x, repo') → x ∉ repo'.session.attached)
    ∧ (∀ xs repo', repo.list fs kw = (.ok xs, repo') →
        ∀ x ∈ xs, x ∉ repo'.session.attached)
    ∧ (∀ x repo', repo.update data = (.ok x, repo') → x ∉ repo'.session.attached)
    ∧ (∀ x repo', repo.upsert data = (.ok x, repo') → x ∉ repo'.session.attached) :=
  ⟨fun x repo' h => add_ok_detached repo data x repo' h,
   fun x repo' h => delete_ok_detached repo id_ x repo' h,
   fun x repo' h => get_ok_detached repo id_ x repo' h,
   fun xs repo' h => list_ok_detached repo fs kw xs repo' h,
   fun x repo' h => update_ok_detached repo data x repo' h,
   fun x repo' h => upsert_ok_detached repo data x repo' h⟩

/-- Witness for C9: a successful `add` of a concrete row leaves that row
detached from the resulting session. -/
theorem C9_returned_instances_detached_witness :
    (⟨[("id", 5)]⟩ : Row) ∉
      (((SQLAlchemyRepository.construct
          { db := [], attached := [], flushExc := none, refreshExc := none,
            executeExc := none, deleteExc := none, mergeExc := none,
            selectOneResult := .ok 1 } none "id").add ⟨[("id", 5)]⟩).2).session.attached :=
  (C9_returned_instances_detached
      (SQLAlchemyRepository.construct
        { db := [], attached := [], flushExc := none, refreshExc := none,
          executeExc := none, deleteExc := none, mergeExc := none,
          selectOneResult := .ok 1 } none "id") ⟨[("id", 5)]⟩ 0 [] []).1
    ⟨[("id", 5)]⟩ _ rfl

/-! ### C10 — the stored select accumulates across calls -/

theorem applyFilter_wheres_extend (repo : SQLAlchemyRepository) (f : FilterTypes) :
    ∃ t, (repo.applyFilter f).selectStmt.wheres = repo.selectStmt.wheres ++ t := by
  rcases f with ⟨l, o⟩ | ⟨fn, b, a⟩ | ⟨fn, vs⟩
  · exact ⟨[], by simp [SQLAlchemyRepository.applyFilter,
      SQLAlchemyRepository.apply_limit_offset_pagination, Select.setLimit, Select.setOffset]⟩
  · simp only [SQLAlchemyRepository.applyFilter, SQLAlchemyRepository.filter_on_datetime_field]
    cases b with
    | none =>
        cases a with
        | none => exact ⟨[], by simp⟩
        | some av => exact ⟨[.gtC fn none], by simp [Select.addWhere]⟩
    | some bv =>
        cases a with
        | none => exact ⟨[.ltC fn (some bv)], by simp [Select.addWhere]⟩
        | some av =>
            exact ⟨[.ltC fn (some bv), .gtC fn (some bv)],
              by simp [Select.addWhere, List.append_assoc]⟩
  · simp only [SQLAlchemyRepository.applyFilter, SQLAlchemyRepository.filter_in_collection]
    by_cases hv : vs.isEmpty
    · exact ⟨[], by simp [hv]⟩
    · exact ⟨[.inC fn vs], by simp [hv, Select.addWhere]⟩

theorem foldl_applyFilter_wheres_extend (fs : List FilterTypes) :
    ∀ repo : SQLAlchemyRepository, ∃ t,
      (fs.foldl SQLAlchemyRepository.applyFilter repo).selectStmt.wheres
        = repo.selectStmt.wheres ++ t := by
  induction fs with
  | nil => exact fun repo => ⟨[], (List.append_nil _).symm⟩
  | cons f fs ih =>
      intro repo
      obtain ⟨t1, h1⟩ := applyFilter_wheres_extend repo f
      obtain ⟨t2, h2⟩ := ih (repo.applyFilter f)
      exact ⟨t1 ++ t2, by rw [List.foldl_cons, h2, h1, List.append_assoc]⟩

theorem list_snd_selectStmt (repo : SQLAlchemyRepository) (fs : List FilterTypes)
    (kw : List (String × Int)) :
    ((repo.list fs kw).2).selectStmt
      = ((fs.foldl SQLAlchemyRepository.applyFilter repo).filter_select_by_kwargs
          kw).selectStmt := by
  simp only [SQLAlchemyRepository.list]
  split
  · rfl
  · rfl

theorem get_snd_selectStmt (repo : SQLAlchemyRepository) (id_ : Int) :
    ((repo.get id_).2).selectStmt.wheres
      = repo.selectStmt.wheres ++ [WhereClause.eqC repo.idAttribute id_] := by
  have hkw : (repo.filter_select_by_kwargs [(repo.idAttribute, id_)]).selectStmt.wheres
      = repo.selectStmt.wheres ++ [WhereClause.eqC repo.idAttribute id_] := by
    rw [filter_select_by_kwargs_selectStmt]
    simp
  simp only [SQLAlchemyRepository.get]
  split
  · exact hkw
  · exact hkw

theorem applyFilter_limitoffset_preserved (repo : SQLAlchemyRepository)
    (f : FilterTypes) (h : ∀ l o, f ≠ FilterTypes.limitOffset l o) :
    (repo.applyFilter f).selectStmt.limit = repo.selectStmt.limit
    ∧ (repo.applyFilter f).selectStmt.offset = repo.selectStmt.offset := by
  rcases f with ⟨l, o⟩ | ⟨fn, b, a⟩ | ⟨fn, vs⟩
  · exact absurd rfl (h l o)
  · simp only [SQLAlchemyRepository.applyFilter, SQLAlchemyRepository.filter_on_datetime_field]
    cases b <;> cases a <;> simp [Select.addWhere]
  · simp only [SQLAlchemyRepository.applyFilter, SQLAlchemyRepository.filter_in_collection]
    by_cases hv : vs.isEmpty <;> simp [hv, Select.addWhere]

theorem foldl_applyFilter_limitoffset_preserved (fs : List FilterTypes) :
    ∀ repo : SQLAlchemyRepository, (∀ l o, FilterTypes.limitOffset l o ∉ fs) →
      (fs.foldl SQLAlchemyRepository.applyFilter repo).selectStmt.limit
          = repo.selectStmt.limit
      ∧ (fs.foldl SQLAlchemyRepository.applyFilter repo).selectStmt.offset
          = repo.selectStmt.offset := by
  induction fs with
  | nil => exact fun repo _ => ⟨rfl, rfl⟩
  | cons f fs ih =>
      intro repo h
      have hf : ∀ l o, f ≠ FilterTypes.limitOffset l o := by
        intro l o hfe
        exact h l o (by rw [← hfe]; exact List.mem_cons_self f fs)
      have h1 := applyFilter_limitoffset_preserved repo f hf
      have h2 := ih (repo.applyFilter f) (fun l o hm => h l o (List.mem_cons_of_mem f hm))
      rw [List.foldl_cons]
      exact ⟨h2.1.trans h1.1, h2.2.trans h1.2⟩

theorem filter_select_by_kwargs_limitoffset (repo : SQLAlchemyRepository)
    (kw : List (String × Int)) :
    (repo.filter_select_by_kwargs kw).selectStmt.limit = repo.selectStmt.limit
    ∧ (repo.filter_select_by_kwargs kw).selectStmt.offset = repo.selectStmt.offset := by
  rw [filter_select_by_kwargs_selectStmt]
  exact ⟨rfl, rfl⟩

theorem list_ok_runs_select (repo : SQLAlchemyRepository) (fs : List FilterTypes)
    (kw : List (String × Int)) (h : repo.session.executeExc = none) :
    (repo.list fs kw).1
      = .ok (((repo.list fs kw).2).selectStmt.run repo.session.db) := by
  rw [list_snd_selectStmt]
  have hsess : ((fs.foldl SQLAlchemyRepository.applyFilter repo).filter_select_by_kwargs
      kw).session = repo.session := by
    rw [filter_select_by_kwargs_session, foldl_applyFilter_session]
  have hex : ((fs.foldl SQLAlchemyRepository.applyFilter repo).filter_select_by_kwargs
        kw).session.executeSelect
        (((fs.foldl SQLAlchemyRepository.applyFilter repo).filter_select_by_kwargs
          kw).selectStmt)
      = .ok ((((fs.foldl SQLAlchemyRepository.applyFilter repo).filter_select_by_kwargs
          kw).selectStmt).run repo.session.db,
          ((((fs.foldl SQLAlchemyRepository.applyFilter repo).filter_select_by_kwargs
            kw).selectStmt).run repo.session.db).foldl Session.addInstance
            ((fs.foldl SQLAlchemyRepository.applyFilter repo).filter_select_by_kwargs
              kw).session) := by
    rw [hsess]
    simp [Session.executeSelect, h]
  simp only [SQLAlchemyRepository.list, hex, wrap_sqlalchemy_exception]

/-- C10: the filter-applying operations mutate the stored select in
place: the where clauses present before a `list` call are still there
after it, `get` permanently adds its id equality clause, a second `list`
keeps everything the first one added, limit and offset survive any
second call that carries no `LimitOffset` filter, and the rows a call
returns are computed from the accumulated (never reset) select. -/
theorem C10_select_accumulates (repo : SQLAlchemyRepository)
    (fs1 fs2 : List FilterTypes) (kw1 kw2 : List (String × Int)) (id_ : Int) :
    (∃ t, ((repo.list fs1 kw1).2).selectStmt.wheres = repo.selectStmt.wheres ++ t)
    ∧ (((repo.get id_).2).selectStmt.wheres
        = repo.selectStmt.wheres ++ [WhereClause.eqC repo.idAttribute id_])
    ∧ (∃ t, ((((repo.list fs1 kw1).2).list fs2 kw2).2).selectStmt.wheres
        = ((repo.list fs1 kw1).2).selectStmt.wheres ++ t)
    ∧ ((∀ l o, FilterTypes.limitOffset l o ∉ fs2) →
        ((((repo.list fs1 kw1).2).list fs2 kw2).2.selectStmt.limit
            = ((repo.list fs1 kw1).2).selectStmt.limit
          ∧ (((repo.list fs1 kw1).2).list fs2 kw2).2.selectStmt.offset
            = ((repo.list fs1 kw1).2).selectStmt.offset))
    ∧ (repo.session.executeExc = none →
        (repo.list fs1 kw1).1
          = .ok (((repo.list fs1 kw1).2).selectStmt.run repo.session.db)) := by
  have hext : ∀ (r : SQLAlchemyRepository) (fs : List FilterTypes)
      (kw : List (String × Int)),
      ∃ t, ((r.list fs kw).2).selectStmt.wheres = r.selectStmt.wheres ++ t := by
    intro r fs kw
    obtain ⟨t1, h1⟩ := foldl_applyFilter_wheres_extend fs r
    obtain ⟨t2, h2⟩ : ∃ t2,
        (((fs.foldl SQLAlchemyRepository.applyFilter r).filter_select_by_kwargs
          kw).selectStmt).wheres
          = (fs.foldl SQLAlchemyRepository.applyFilter r).selectStmt.wheres ++ t2 := by
      rw [filter_select_by_kwargs_selectStmt]
      exact ⟨_, rfl⟩
    refine ⟨t1 ++ t2, ?_⟩
    rw [list_snd_selectStmt, h2, h1, List.append_assoc]
  refine ⟨hext repo fs1 kw1, get_snd_selectStmt repo id_,
    hext ((repo.list fs1 kw1).2) fs2 kw2, ?_, fun h => list_ok_runs_select repo fs1 kw1 h⟩
  intro hno
  have h1 := foldl_applyFilter_limitoffset_preserved fs2 ((repo.list fs1 kw1).2) hno
  have h2 := filter_select_by_kwargs_limitoffset
    (fs2.foldl SQLAlchemyRepository.applyFilter ((repo.list fs1 kw1).2)) kw2
  rw [list_snd_selectStmt ((repo.list fs1 kw1).2) fs2 kw2]
  exact ⟨h2.1.trans h1.1, h2.2.trans h1.2⟩

/-- Witness for C10: after a first `list` call with a collection filter
and a limit/offset, a second `list` call with only a keyword argument
still carries the first call's where clause, limit and offset, and its
result is computed from the accumulated select. -/
theorem C10_select_accumulates_witness :
    ((((SQLAlchemyRepository.construct
          { db := [⟨[("id", 1), ("kind", 7)]⟩, ⟨[("id", 2), ("kind", 8)]⟩],
            attached := [], flushExc := none, refreshExc := none,
            executeExc := none, deleteExc := none, mergeExc := none,
            selectOneResult := .ok 1 }
          none "id").list [.collectionFilter "id" [1, 2], .limitOffset 10 0]
          []).2).list [] [("kind", 7)]).2.selectStmt.limit = some 10 := by
  have h := (C10_select_accumulates
      (SQLAlchemyRepository.construct
        { db := [⟨[("id", 1), ("kind", 7)]⟩, ⟨[("id", 2), ("kind", 8)]⟩],
          attached := [], flushExc := none, refreshExc := none,
          executeExc := none, deleteExc := none, mergeExc := none,
          selectOneResult := .ok 1 }
        none "id") [.collectionFilter "id" [1, 2], .limitOffset 10 0] [] []
      [("kind", 7)] 0).2.2.2.1 (by intro l o hm; cases hm)
  rw [h.1]
  rfl

/-! ### C8 — empty `CollectionFilter` -/

/-- C8: a `CollectionFilter` with an empty values collection is the
identity on the stored select, and `list` with such a filter behaves
exactly as if the filter were absent. -/
theorem C8_empty_collection_filter_identity (repo : SQLAlchemyRepository)
    (f : String) (fs : List FilterTypes) (kw : List (String × Int)) :
    repo.filter_in_collection f [] = repo
    ∧ repo.list (FilterTypes.collectionFilter f [] :: fs) kw = repo.list fs kw := by
  have h : repo.filter_in_collection f [] = repo := by
    simp [SQLAlchemyRepository.filter_in_collection]
  refine ⟨h, ?_⟩
  simp only [SQLAlchemyRepository.list, List.foldl_cons]
  rw [show repo.applyFilter (FilterTypes.collectionFilter f []) = repo from h]

/-! ### Dictionary lemmas for `setdefault` -/

theorem lookupD_cons {K V : Type} [DecidableEq K] (p : K × V) (d : List (K × V))
    (k : K) :
    lookupD (p :: d) k = if p.1 = k then some p.2 else lookupD d k := rfl

theorem lookupD_append_left {K V : Type} [DecidableEq K] (d1 d2 : List (K × V))
    (k : K) (w : V) (h : lookupD d1 k = some w) :
    lookupD (d1 ++ d2) k = some w := by
  induction d1 with
  | nil => simp [lookupD] at h
  | cons p d1 ih =>
      rw [List.cons_append]
      rw [lookupD_cons] at h ⊢
      by_cases hp : p.1 = k
      · simpa [hp] using h
      · rw [if_neg hp] at h ⊢
        exact ih h

theorem lookupD_append_right {K V : Type} [DecidableEq K] (d1 d2 : List (K × V))
    (k : K) (h : lookupD d1 k = none) :
    lookupD (d1 ++ d2) k = lookupD d2 k := by
  induction d1 with
  | nil => rfl
  | cons p d1 ih =>
      rw [List.cons_append]
      rw [lookupD_cons] at h ⊢
      by_cases hp : p.1 = k
      · simp [hp] at h
      · rw [if_neg hp] at h ⊢
        exact ih h

theorem lookupD_setdefaultD_of_some {K V : Type} [DecidableEq K]
    {d : List (K × V)} {k' : K} {w : V} (k : K) (v : V)
    (h : lookupD d k' = some w) :
    lookupD (setdefaultD d k v) k' = some w := by
  unfold setdefaultD
  cases h0 : lookupD d k with
  | some w0 => exact h
  | none => exact lookupD_append_left d [(k, v)] k' w h

theorem lookupD_setdefaultD_insert {K V : Type} [DecidableEq K]
    {d : List (K × V)} {k : K} (v : V) (h : lookupD d k = none) :
    lookupD (setdefaultD d k v) k = some v := by
  unfold setdefaultD
  rw [h, lookupD_append_right d [(k, v)] k h]
  simp [lookupD]

theorem lookupD_setdefaultD_of_ne {K V : Type} [DecidableEq K]
    (d : List (K × V)) (k k' : K) (v : V) (h : k' ≠ k) :
    lookupD (setdefaultD d k v) k' = lookupD d k' := by
  unfold setdefaultD
  cases h0 : lookupD d k with
  | some w0 => rfl
  | none =>
      cases h1 : lookupD d k' with
      | some w1 => exact lookupD_append_left d [(k, v)] k' w1 h1
      | none =>
          rw [lookupD_append_right d [(k, v)] k' h1]
          simp [lookupD, Ne.symm h]

/-! ### Characterizations of the two construction paths -/

theorem ConfigureApp_call_eq (wf : List WorkerFunction) (cfg : AppConfig) :
    ConfigureApp.call wf cfg =
      { dependencies := setdefaultD (setdefaultD cfg.dependencies "filters" .filtersDep)
          "session" .sessionDep
        exception_handlers := setdefaultD cfg.exception_handlers (.status 500)
          .loggingExceptionHandler
        before_send :=
          match cfg.before_send with
          | .single h => .multiple [h, .transactionManager]
          | .multiple hs => .multiple (hs ++ [.transactionManager])
        on_shutdown := cfg.on_shutdown ++ [.httpClientClose, .engineDispose, .redisClose]
          ++ (if wf.isEmpty then [] else [.workerStop])
        on_startup := cfg.on_startup ++ [.logConfigConfigure, .sentryConfigure]
          ++ (if wf.isEmpty then [] else [.workerOnAppStartup])
        route_handlers := cfg.route_handlers ++ [.healthCheckRoute]
        middleware := cfg.middleware
        response_class :=
          match cfg.response_class with
          | none => some .libResponse
          | some rc => some rc
        openapi_config :=
          match cfg.openapi_config with
          | none => some .libOpenapiConfig
          | some oc => some oc
        compression_config := cfg.compression_config } := by
  rcases cfg with ⟨dep, exch, bs, osd, ost, rh, mw, rc, oc, cc⟩
  cases bs <;> cases rc <;> cases oc <;>
    by_cases hwf : wf.isEmpty = true <;>
      simp [ConfigureApp.call, hwf]

theorem construct_on_shutdown (a : StarliteInitArgs) :
    (Starlite.construct a).on_shutdown
      = orEmpty a.on_shutdown ++ [.httpClientClose, .engineDispose, .redisClose]
        ++ (if (orEmpty a.worker_functions).isEmpty then [] else [.workerStop]) := by
  by_cases hwf : (orEmpty a.worker_functions).isEmpty = true <;>
    simp [Starlite.construct, hwf]

theorem construct_on_startup (a : StarliteInitArgs) :
    (Starlite.construct a).on_startup
      = orEmpty a.on_startup ++ [.logConfigConfigure, .sentryConfigure]
        ++ (if (orEmpty a.worker_functions).isEmpty then [] else [.workerOnAppStartup]) := by
  by_cases hwf : (orEmpty a.worker_functions).isEmpty = true <;>
    simp [Starlite.construct, hwf]

theorem construct_dependencies (a : StarliteInitArgs) :
    (Starlite.construct a).dependencies
      = setdefaultD (setdefaultD (orEmpty a.dependencies) "filters" .filtersDep)
          "session" .sessionDep := by
  simp [Starlite.construct]

theorem construct_exception_handlers (a : StarliteInitArgs) :
    (Starlite.construct a).exception_handlers
      = setdefaultD (orEmpty a.exception_handlers) (.status 500)
          .loggingExceptionHandler := by
  simp [Starlite.construct]

/-! ### C5 — shutdown handlers -/

theorem mem_workerStop_iff {α : Type} (base : List LifeSpanHandler) (wfl : List α)
    (h : LifeSpanHandler.workerStop ∉ base) :
    (LifeSpanHandler.workerStop
        ∈ base ++ [.httpClientClose, .engineDispose, .redisClose]
          ++ (if wfl.isEmpty then [] else [.workerStop]))
      ↔ wfl ≠ [] := by
  cases wfl with
  | nil => simp [h]
  | cons x xs => simp

/-- C5: on both construction paths the shutdown handler list keeps every
caller-supplied handler and gains the HTTP client close, the engine
dispose and the redis close; the worker's stop is present exactly when a
non-empty collection of worker functions was supplied (the caller cannot
supply `worker.stop` itself: the worker is local to the constructor). -/
theorem C5_shutdown_handlers (a : StarliteInitArgs) (wf : List WorkerFunction)
    (cfg : AppConfig) :
    ((Starlite.construct a).on_shutdown
        = orEmpty a.on_shutdown ++ [.httpClientClose, .engineDispose, .redisClose]
          ++ (if (orEmpty a.worker_functions).isEmpty then [] else [.workerStop]))
    ∧ (∀ h ∈ orEmpty a.on_shutdown, h ∈ (Starlite.construct a).on_shutdown)
    ∧ LifeSpanHandler.httpClientClose ∈ (Starlite.construct a).on_shutdown
    ∧ LifeSpanHandler.engineDispose ∈ (Starlite.construct a).on_shutdown
    ∧ LifeSpanHandler.redisClose ∈ (Starlite.construct a).on_shutdown
    ∧ (LifeSpanHandler.workerStop ∉ orEmpty a.on_shutdown →
        (LifeSpanHandler.workerStop ∈ (Starlite.construct a).on_shutdown
          ↔ orEmpty a.worker_functions ≠ []))
    ∧ ((ConfigureApp.call wf cfg).on_shutdown
        = cfg.on_shutdown ++ [.httpClientClose, .engineDispose, .redisClose]
          ++ (if wf.isEmpty then [] else [.workerStop]))
    ∧ (∀ h ∈ cfg.on_shutdown, h ∈ (ConfigureApp.call wf cfg).on_shutdown)
    ∧ LifeSpanHandler.httpClientClose ∈ (ConfigureApp.call wf cfg).on_shutdown
    ∧ LifeSpanHandler.engineDispose ∈ (ConfigureApp.call wf cfg).on_shutdown
    ∧ LifeSpanHandler.redisClose ∈ (ConfigureApp.call wf cfg).on_shutdown
    ∧ (LifeSpanHandler.workerStop ∉ cfg.on_shutdown →
        (LifeSpanHandler.workerStop ∈ (ConfigureApp.call wf cfg).on_shutdown
          ↔ wf ≠ [])) := by
  have hw := construct_on_shutdown a
  have hp : (ConfigureApp.call wf cfg).on_shutdown
      = cfg.on_shutdown ++ [.httpClientClose, .engineDispose, .redisClose]
        ++ (if wf.isEmpty then [] else [.workerStop]) := by
    rw [ConfigureApp_call_eq]
  refine ⟨hw, ?_, ?_, ?_, ?_, ?_, hp, ?_, ?_, ?_, ?_, ?_⟩
  · intro h hh
    rw [hw]
    simp [List.mem_append, hh]
  · rw [hw]; simp [List.mem_append]
  · rw [hw]; simp [List.mem_append]
  · rw [hw]; simp [List.mem_append]
  · intro hno
    rw [hw]
    exact mem_workerStop_iff _ _ hno
  · intro h hh
    rw [hp]
    simp [List.mem_append, hh]
  · rw [hp]; simp [List.mem_append]
  · rw [hp]; simp [List.mem_append]
  · rw [hp]; simp [List.mem_append]
  · intro hno
    rw [hp]
    exact mem_workerStop_iff _ _ hno

/-- Witness for C5: with one worker function supplied the wrapper's
shutdown list contains the worker's stop; with none supplied the
plugin's does not. -/
theorem C5_shutdown_handlers_witness :
    (LifeSpanHandler.workerStop
        ∈ (Starlite.construct
            ⟨none, none, none, some [.user 3], none, [], some [1]⟩).on_shutdown)
    ∧ ¬ (LifeSpanHandler.workerStop
        ∈ (ConfigureApp.call []
            { dependencies := [], exception_handlers := [], before_send := .multiple [],
              on_shutdown := [.user 3], on_startup := [], route_handlers := [],
              middleware := [], response_class := none, openapi_config := none,
              compression_config := none }).on_shutdown) :=
  ⟨((C5_shutdown_handlers ⟨none, none, none, some [.user 3], none, [], some [1]⟩ []
      { dependencies := [], exception_handlers := [], before_send := .multiple [],
        on_shutdown := [.user 3], on_startup := [], route_handlers := [],
        middleware := [], response_class := none, openapi_config := none,
        compression_config := none }).2.2.2.2.2.1 (by decide)).mpr (by decide),
   fun hmem =>
     (by decide : ¬([] : List WorkerFunction) ≠ [])
       (((C5_shutdown_handlers ⟨none, none, none, some [.user 3], none, [], some [1]⟩ []
          { dependencies := [], exception_handlers := [], before_send := .multiple [],
            on_shutdown := [.user 3], on_startup := [], route_handlers := [],
            middleware := [], response_class := none, openapi_config := none,
            compression_config := none }).2.2.2.2.2.2.2.2.2.2.2 (by decide)).mp hmem)⟩

/-! ### C6 — dependency and exception-handler defaults -/

/-- C6: on both construction paths the `"filters"` and `"session"`
dependency providers and the HTTP-500 exception handler are defaults
only: every caller-supplied entry of either mapping — including ones
under those very keys — is still found unchanged afterwards, and the
library defaults are inserted only for keys the caller left unbound. -/
theorem C6_defaults_preserve_entries (a : StarliteInitArgs) (wf : List WorkerFunction)
    (cfg : AppConfig) :
    (∀ k v, lookupD (orEmpty a.dependencies) k = some v →
        lookupD (Starlite.construct a).dependencies k = some v)
    ∧ (lookupD (orEmpty a.dependencies) "filters" = none →
        lookupD (Starlite.construct a).dependencies "filters" = some .filtersDep)
    ∧ (lookupD (orEmpty a.dependencies) "session" = none →
        lookupD (Starlite.construct a).dependencies "session" = some .sessionDep)
    ∧ (∀ k v, lookupD (orEmpty a.exception_handlers) k = some v →
        lookupD (Starlite.construct a).exception_handlers k = some v)
    ∧ (lookupD (orEmpty a.exception_handlers) (.status 500) = none →
        lookupD (Starlite.construct a).exception_handlers (.status 500)
          = some .loggingExceptionHandler)
    ∧ (∀ k v, lookupD cfg.dependencies k = some v →
        lookupD (ConfigureApp.call wf cfg).dependencies k = some v)
    ∧ (lookupD cfg.dependencies "filters" = none →
        lookupD (ConfigureApp.call wf cfg).dependencies "filters" = some .filtersDep)
    ∧ (lookupD cfg.dependencies "session" = none →
        lookupD (ConfigureApp.call wf cfg).dependencies "session" = some .sessionDep)
    ∧ (∀ k v, lookupD cfg.exception_handlers k = some v →
        lookupD (ConfigureApp.call wf cfg).exception_handlers k = some v)
    ∧ (lookupD cfg.exception_handlers (.status 500) = none →
        lookupD (ConfigureApp.call wf cfg).exception_handlers (.status 500)
          = some .loggingExceptionHandler) := by
  have hdep : ∀ (d : List (String × Provide)),
      (∀ k v, lookupD d k = some v →
        lookupD (setdefaultD (setdefaultD d "filters" Provide.filtersDep)
          "session" Provide.sessionDep) k = some v)
      ∧ (lookupD d "filters" = none →
        lookupD (setdefaultD (setdefaultD d "filters" Provide.filtersDep)
          "session" Provide.sessionDep) "filters" = some .filtersDep)
      ∧ (lookupD d "session" = none →
        lookupD (setdefaultD (setdefaultD d "filters" Provide.filtersDep)
          "session" Provide.sessionDep) "session" = some .sessionDep) := by
    intro d
    refine ⟨?_, ?_, ?_⟩
    · intro k v h
      exact lookupD_setdefaultD_of_some _ _
        (lookupD_setdefaultD_of_some _ _ h)
    · intro h
      have h1 := lookupD_setdefaultD_insert (d := d) Provide.filtersDep h
      exact lookupD_setdefaultD_of_some _ _ h1
    · intro h
      have h1 : lookupD (setdefaultD d "filters" Provide.filtersDep) "session" = none := by
        rw [lookupD_setdefaultD_of_ne d "filters" "session" Provide.filtersDep
          (by decide)]
        exact h
      exact lookupD_setdefaultD_insert Provide.sessionDep h1
  have hexc : ∀ (d : List (ExcHandlerKey × ExceptionHandler)),
      (∀ k v, lookupD d k = some v →
        lookupD (setdefaultD d (.status 500) ExceptionHandler.loggingExceptionHandler) k
          = some v)
      ∧ (lookupD d (.status 500) = none →
        lookupD (setdefaultD d (.status 500) ExceptionHandler.loggingExceptionHandler)
          (ExcHandlerKey.status 500) = some .loggingExceptionHandler) := by
    intro d
    exact ⟨fun k v h => lookupD_setdefaultD_of_some _ _ h,
      fun h => lookupD_setdefaultD_insert _ h⟩
  have hpdep : (ConfigureApp.call wf cfg).dependencies
      = setdefaultD (setdefaultD cfg.dependencies "filters" .filtersDep)
          "session" .sessionDep := by
    rw [ConfigureApp_call_eq]
  have hpexc : (ConfigureApp.call wf cfg).exception_handlers
      = setdefaultD cfg.exception_handlers (.status 500) .loggingExceptionHandler := by
    rw [ConfigureApp_call_eq]
  refine ⟨?_, ?_, ?_, ?_, ?_, ?_, ?_, ?_, ?_, ?_⟩
  · intro k v h
    rw [construct_dependencies]
    exact (hdep _).1 k v h
  · intro h
    rw [construct_dependencies]
    exact (hdep _).2.1 h
  · intro h
    rw [construct_dependencies]
    exact (hdep _).2.2 h
  · intro k v h
    rw [construct_exception_handlers]
    exact (hexc _).1 k v h
  · intro h
    rw [construct_exception_handlers]
    exact (hexc _).2 h
  · intro k v h
    rw [hpdep]
    exact (hdep _).1 k v h
  · intro h
    rw [hpdep]
    exact (hdep _).2.1 h
  · intro h
    rw [hpdep]
    exact (hdep _).2.2 h
  · intro k v h
    rw [hpexc]
    exact (hexc _).1 k v h
  · intro h
    rw [hpexc]
    exact (hexc _).2 h

/-- Witness for C6: a caller-supplied `"filters"` provider survives the
wrapper unchanged, and a caller-supplied 500 handler survives the plugin
unchanged. -/
theorem C6_defaults_preserve_entries_witness :
    lookupD (Starlite.construct
        ⟨some [("filters", .user 9)], none, none, none, none, [], none⟩).dependencies
      "filters" = some (.user 9)
    ∧ lookupD (ConfigureApp.call []
        { dependencies := [], exception_handlers := [(.status 500, .user 4)],
          before_send := .multiple [], on_shutdown := [], on_startup := [],
          route_handlers := [], middleware := [], response_class := none,
          openapi_config := none, compression_config := none }).exception_handlers
      (.status 500) = some (.user 4) :=
  ⟨(C6_defaults_preserve_entries
      ⟨some [("filters", .user 9)], none, none, none, none, [], none⟩ []
      { dependencies := [], exception_handlers := [(.status 500, .user 4)],
        before_send := .multiple [], on_shutdown := [], on_startup := [],
        route_handlers := [], middleware := [], response_class := none,
        openapi_config := none, compression_config := none }).1
      "filters" (.user 9) (by decide),
   (C6_defaults_preserve_entries
      ⟨some [("filters", .user 9)], none, none, none, none, [], none⟩ []
      { dependencies := [], exception_handlers := [(.status 500, .user 4)],
        before_send := .multiple [], on_shutdown := [], on_startup := [],
        route_handlers := [], middleware := [], response_class := none,
        openapi_config := none, compression_config := none }).2.2.2.2.2.2.2.2.1
      (.status 500) (.user 4) (by decide)⟩

/-! ### C7 — comparing the two construction paths -/

/-- The framework `AppConfig` carrying the same caller-supplied values
the wrapper receives: the plugin path starts from the framework defaults
(`before_send` empty, `response_class`, `openapi_config` and
`compression_config` unset) with the caller's mappings and lists filled
in.  This is the common input on which the two paths are compared. -/
def appConfigOfArgs (a : StarliteInitArgs) : AppConfig :=
  { dependencies := orEmpty a.dependencies
    exception_handlers := orEmpty a.exception_handlers
    before_send := .multiple []
    on_shutdown := orEmpty a.on_shutdown
    on_startup := orEmpty a.on_startup
    route_handlers := a.route_handlers
    middleware := orEmpty a.middleware
    response_class := none
    openapi_config := none
    compression_config := none }

/-- C7 counterexample: on the empty input the two paths do not produce
the same session-per-request transaction management — the wrapper
prepends `DBSessionMiddleware` to the middleware list and leaves
`before_send` alone, while the plugin leaves middleware alone and
appends `db.transaction_manager` to `before_send`. -/
theorem C7_paths_differ :
    (Starlite.construct ⟨none, none, none, none, none, [], none⟩).middleware
        = [Middleware.dbSessionMiddleware]
    ∧ (ConfigureApp.call (ConfigureApp.construct none)
        (appConfigOfArgs ⟨none, none, none, none, none, [], none⟩)).middleware = []
    ∧ (Starlite.construct ⟨none, none, none, none, none, [], none⟩).before_send
        = .multiple []
    ∧ (ConfigureApp.call (ConfigureApp.construct none)
        (appConfigOfArgs ⟨none, none, none, none, none, [], none⟩)).before_send
        = .multiple [BeforeSendHandler.transactionManager] := by
  refine ⟨rfl, ?_, rfl, ?_⟩ <;> rw [ConfigureApp_call_eq] <;> rfl

/-- C7 (amended): on every common input the two construction paths agree
on the dependency defaults, the HTTP-500 exception-handler default, the
startup and shutdown handler additions (including worker registration),
the appended health-check route, and the response-class and OpenAPI
defaults; but the session-per-request transaction management differs in
mechanism — the wrapper prepends `DBSessionMiddleware` to the middleware
list, the plugin appends the transaction manager to `before_send`. -/
theorem C7_paths_agree_except_session_management (a : StarliteInitArgs) :
    ((Starlite.construct a).dependencies
        = (ConfigureApp.call (orEmpty a.worker_functions) (appConfigOfArgs a)).dependencies)
    ∧ ((Starlite.construct a).exception_handlers
        = (ConfigureApp.call (orEmpty a.worker_functions)
            (appConfigOfArgs a)).exception_handlers)
    ∧ ((Starlite.construct a).on_startup
        = (ConfigureApp.call (orEmpty a.worker_functions) (appConfigOfArgs a)).on_startup)
    ∧ ((Starlite.construct a).on_shutdown
        = (ConfigureApp.call (orEmpty a.worker_functions) (appConfigOfArgs a)).on_shutdown)
    ∧ ((Starlite.construct a).route_handlers
        = (ConfigureApp.call (orEmpty a.worker_functions)
            (appConfigOfArgs a)).route_handlers)
    ∧ ((Starlite.construct a).response_class
        = (ConfigureApp.call (orEmpty a.worker_functions)
            (appConfigOfArgs a)).response_class)
    ∧ ((Starlite.construct a).openapi_config
        = (ConfigureApp.call (orEmpty a.worker_functions)
            (appConfigOfArgs a)).openapi_config)
    ∧ ((Starlite.construct a).middleware
        = Middleware.dbSessionMiddleware :: orEmpty a.middleware)
    ∧ ((ConfigureApp.call (orEmpty a.worker_functions) (appConfigOfArgs a)).middleware
        = orEmpty a.middleware)
    ∧ ((Starlite.construct a).before_send = .multiple [])
    ∧ ((ConfigureApp.call (orEmpty a.worker_functions) (appConfigOfArgs a)).before_send
        = .multiple [BeforeSendHandler.transactionManager]) := by
  rw [ConfigureApp_call_eq]
  refine ⟨?_, ?_, ?_, ?_, ?_, ?_, ?_, ?_, ?_, ?_, ?_⟩ <;>
    by_cases hwf : (orEmpty a.worker_functions).isEmpty = true <;>
      simp [Starlite.construct, appConfigOfArgs, hwf]

end StarliteSaqlalchemy
